import Mathlib

/-!
Verification of the Plantify disease-detection app (`src/app.py`) against its
natural-language specification.

The app is a linear pipeline: load three resources (Keras model,
`class_names.json`, `disease_info.json`), ingest one image (upload or camera),
preprocess it (resize to 128x128, divide by 255, expand to a batch of one),
run `model.predict`, take `np.argmax` / `np.max`, look the class name up, tier
the confidence, and render disease information.

We embed this pipeline shallowly: images and tensors are index functions with
explicit dimension fields, pixel and probability values are rationals,
Python exceptions that a function may let escape are modelled by a
`PyResult` outcome type, and Python truthiness of the gating values
(`None`, empty list, empty dict) is modelled explicitly.
-/

namespace Plantify

/-- Outcome of running a piece of Python code: either a normal return value or
an exception that propagates unhandled out of the code under consideration. -/
inductive PyResult (α : Type) where
  | ok : α → PyResult α
  | raised : String → PyResult α
  deriving DecidableEq, Repr

/-- State of a JSON resource file from the point of view of a loader:
absent (opening raises `FileNotFoundError`), present but unparseable
(`json.load` raises `JSONDecodeError`), or present and parsed to a value. -/
inductive FileState (α : Type) where
  | missing
  | parseError
  | parsed : α → FileState α
  deriving DecidableEq, Repr

/-- A decoded raster image (`PIL.Image`): spatial dimensions, channel count,
and a pixel grid.  Values are rationals so that both the native integer range
[0,255] and the rescaled [0,1] range are expressible. -/
structure Img where
  height : ℕ
  width : ℕ
  channels : ℕ
  px : ℕ → ℕ → ℕ → ℚ

/-- A rank-4 tensor as produced by `np.expand_dims(..., axis=0)`. -/
structure Tensor4 where
  n : ℕ
  h : ℕ
  w : ℕ
  c : ℕ
  entry : ℕ → ℕ → ℕ → ℕ → ℚ

/-- `image.resize((128, 128))` (src/app.py line 110): produce a 128x128 image
by sampling the source grid; the channel count is untouched.  The exact
resampling kernel lives in PIL (out of scope per the spec); we model it as
nearest-neighbour index remapping, which fixes everything the claims use:
the output dimensions, the preserved channel count, the preserved value
range, and identity behaviour on an already-128x128 source. -/
def resize128 (im : Img) : Img :=
  { height := 128, width := 128, channels := im.channels,
    px := fun i j k => im.px (i * im.height / 128) (j * im.width / 128) k }

/-- `np.array(img) / 255.0` (src/app.py line 111): divide every channel value
by 255. -/
def rescale (im : Img) : Img :=
  { im with px := fun i j k => im.px i j k / 255 }

/-- `np.expand_dims(img_array, axis=0)` (src/app.py line 112): wrap the image
in a single-element batch axis. -/
def expandDims (im : Img) : Tensor4 :=
  { n := 1, h := im.height, w := im.width, c := im.channels,
    entry := fun _ i j k => im.px i j k }

/-- The whole preprocessing block, src/app.py lines 110-112. -/
def preprocess (im : Img) : Tensor4 :=
  expandDims (rescale (resize128 im))

/-- `np.max` over the (flattened) prediction row: maximum entry of the list.
Only ever applied to nonempty lists in the pipeline; the `[]` case is a
junk value. -/
def npMax : List ℚ → ℚ
  | [] => 0
  | [x] => x
  | x :: y :: xs => max x (npMax (y :: xs))

/-- `np.argmax` over the (flattened) prediction row: the FIRST index at which
the maximum entry occurs (NumPy documented tie-break).  Only ever applied to
nonempty lists in the pipeline; the `[]` case is a junk value. -/
def npArgmax : List ℚ → ℕ
  | [] => 0
  | [_] => 0
  | x :: y :: xs => if npMax (y :: xs) ≤ x then 0 else npArgmax (y :: xs) + 1

/-- The confidence tier banner, src/app.py lines 128-133. -/
inductive Tier where
  | high
  | moderate
  | low
  deriving DecidableEq, Repr

/-- `if confidence > 0.85: ... elif confidence > 0.6: ... else: ...`
(src/app.py lines 128-133). -/
def confidenceTier (c : ℚ) : Tier :=
  if 0.85 < c then Tier.high
  else if 0.6 < c then Tier.moderate
  else Tier.low

end Plantify

namespace Plantify

/-- One value of `disease_info.json`: a record with all fields optional,
read via `info.get(field, default)`. -/
structure DiseaseRecord where
  title : Option String
  description : Option String
  symptoms : Option String
  prevention : Option String
  remedy : Option String
  deriving DecidableEq, Repr

/-- The parsed `disease_info.json`: a Python dict modelled as an association
list from class-label strings to records (keys unique in practice; lookup
takes the first binding, as a dict lookup would). -/
abbrev DiseaseDict : Type := List (String × DiseaseRecord)

/-- `predicted_class in disease_info` / `disease_info[predicted_class]`. -/
def diseaseLookup (di : DiseaseDict) (k : String) : Option DiseaseRecord :=
  List.lookup k di

/-- Does `p` occur as a leading segment of `l`? -/
def startsWithList (p l : List Char) : Bool :=
  match p, l with
  | [], _ => true
  | _ :: _, [] => false
  | a :: as, b :: bs => a == b && startsWithList as bs

/-- Does `p` occur as a contiguous segment of `l`? -/
def hasSubList (p l : List Char) : Bool :=
  match l with
  | [] => startsWithList p []
  | _ :: t => startsWithList p l || hasSubList p t

/-- `"healthy" in predicted_class.lower()` (src/app.py line 145). -/
def mentionsHealthy (s : String) : Bool :=
  hasSubList "healthy".toList s.toLower.toList

/-- What the disease-information block (src/app.py lines 141-171) renders:
the healthy branch, the four-tab disease branch, or the single
"not available" error message. -/
inductive InfoRender where
  | healthy (title description symptoms prevention : String)
  | diseased (title description symptoms prevention remedy : String)
  | notAvailable
  deriving DecidableEq, Repr

/-- The disease-information block, src/app.py lines 141-171, with every
`info.get(..., default)` fallback string copied from the source. -/
def renderInfo (di : DiseaseDict) (predicted_class : String) : InfoRender :=
  match diseaseLookup di predicted_class with
  | some info =>
    if mentionsHealthy predicted_class then
      InfoRender.healthy
        (info.title.getD "Healthy")
        (info.description.getD
          "The plant appears to be in good health. Keep up the good care!")
        (info.symptoms.getD "N/A")
        (info.prevention.getD "N/A")
    else
      InfoRender.diseased
        (info.title.getD predicted_class)
        (info.description.getD "No description available.")
        (info.symptoms.getD "No symptoms information available.")
        (info.prevention.getD "No prevention information available.")
        (info.remedy.getD "No remedy information available.")
  | none => InfoRender.notAvailable

/-- The loaded classifier: `model.predict` on a `(1, 128, 128, c)` tensor
returns a `(1, N)` probability array; we represent the array by its single
row, which is also what `np.argmax` / `np.max` see after flattening. -/
def Model : Type := Tensor4 → List ℚ

/-- What the analysis branch displays on success. -/
structure RenderResult where
  cls : String
  conf : ℚ
  tier : Tier
  info : InfoRender
  deriving DecidableEq, Repr

/-- Outcome of evaluating the results column (src/app.py lines 104-176). -/
inductive Outcome where
  | rendered : RenderResult → Outcome
  | notLoadedError
  | promptInfo
  | raised : String → Outcome
  deriving DecidableEq, Repr

/-- The analysis branch, src/app.py lines 106-171: preprocess, predict,
argmax/max, label lookup (`class_names[predicted_idx]`, which raises
`IndexError` when out of bounds, line 118), confidence tier, info block. -/
def runAnalysis (image : Img) (model : Model) (class_names : List String)
    (disease_info : DiseaseDict) : Outcome :=
  let img_array := preprocess image
  let predictions := model img_array
  let predicted_idx := npArgmax predictions
  let confidence := npMax predictions
  match class_names.get? predicted_idx with
  | none => Outcome.raised "IndexError"
  | some predicted_class =>
      Outcome.rendered
        { cls := predicted_class, conf := confidence,
          tier := confidenceTier confidence,
          info := renderInfo disease_info predicted_class }

/-- The results column, src/app.py lines 104-176, including the truthiness
gate `if image and model and class_names and disease_info` (line 104) and the
`elif not (model and class_names and disease_info)` error branch (line 173).
`None`, `[]` and `{}` are falsy; a loaded image/model and nonempty
list/dict are truthy. -/
def runCol2 (image : Option Img) (model : Option Model)
    (class_names : List String) (disease_info : DiseaseDict) : Outcome :=
  match image, model with
  | some im, some m =>
      if class_names.isEmpty || disease_info.isEmpty then Outcome.notLoadedError
      else runAnalysis im m class_names disease_info
  | _, none => Outcome.notLoadedError
  | _, some _ =>
      if class_names.isEmpty || disease_info.isEmpty then Outcome.notLoadedError
      else Outcome.promptInfo

/-- `load_app_model` (src/app.py lines 12-21): `tf.keras.models.load_model`
inside `try ... except Exception`, so every failure mode — missing file or a
file that cannot be deserialised as a model — is caught, an error banner is
shown, and the sentinel `None` is returned. -/
def load_app_model : FileState Model → PyResult (Option Model)
  | FileState.missing => PyResult.ok none
  | FileState.parseError => PyResult.ok none
  | FileState.parsed m => PyResult.ok (some m)

/-- `load_class_names` (src/app.py lines 28-37): `open` + `json.load` inside
`try ... except FileNotFoundError`.  Only a missing file is caught (returning
the sentinel `[]`); a file that exists but fails to parse makes `json.load`
raise `json.JSONDecodeError`, which no handler catches. -/
def load_class_names : FileState (List String) → PyResult (List String)
  | FileState.missing => PyResult.ok []
  | FileState.parseError => PyResult.raised "JSONDecodeError"
  | FileState.parsed v => PyResult.ok v

/-- `load_disease_info` (src/app.py lines 44-53): same shape as
`load_class_names` — only `FileNotFoundError` is caught (returning the
sentinel `{}`); a parse error propagates. -/
def load_disease_info : FileState DiseaseDict → PyResult DiseaseDict
  | FileState.missing => PyResult.ok []
  | FileState.parseError => PyResult.raised "JSONDecodeError"
  | FileState.parsed v => PyResult.ok v

/-- What the active input widget handed to `Image.open` for one interaction:
nothing, a blob that fails to decode (with the exception message), or a blob
that decodes to an image. -/
inductive DecodeInput where
  | nothing
  | bad : String → DecodeInput
  | good : Img → DecodeInput

/-- Upload mode, src/app.py lines 85-91: `Image.open` is wrapped in
`try ... except Exception`, so a decode failure shows an error
(second component `true`) and sets `image = None`. -/
def uploadIngest : DecodeInput → PyResult (Option Img × Bool)
  | DecodeInput.nothing => PyResult.ok (none, false)
  | DecodeInput.bad _ => PyResult.ok (none, true)
  | DecodeInput.good im => PyResult.ok (some im, false)

/-- Camera mode, src/app.py lines 93-96: `image = Image.open(camera_input)`
with no `try`/`except`, so a decode failure propagates as an unhandled
exception. -/
def cameraIngest : DecodeInput → PyResult (Option Img × Bool)
  | DecodeInput.nothing => PyResult.ok (none, false)
  | DecodeInput.bad e => PyResult.raised e
  | DecodeInput.good im => PyResult.ok (some im, false)

theorem npMax_cons (a : ℚ) (l : List ℚ) (h : l ≠ []) :
    npMax (a :: l) = max a (npMax l) := by
  cases l with
  | nil => exact absurd rfl h
  | cons b bs => rfl

theorem npArgmax_cons_cons (a b : ℚ) (bs : List ℚ) :
    npArgmax (a :: b :: bs) =
      if npMax (b :: bs) ≤ a then 0 else npArgmax (b :: bs) + 1 := rfl

theorem le_npMax {l : List ℚ} {x : ℚ} (hx : x ∈ l) : x ≤ npMax l := by
  induction l with
  | nil => cases hx
  | cons a t ih =>
    cases t with
    | nil =>
      have : x = a := by simpa using hx
      simp [this, npMax]
    | cons b bs =>
      rw [npMax_cons a (b :: bs) (by simp)]
      rcases List.mem_cons.mp hx with h | h
      · exact h ▸ le_max_left _ _
      · exact le_trans (ih h) (le_max_right _ _)

theorem npArgmax_lt_length {l : List ℚ} (h : l ≠ []) :
    npArgmax l < l.length := by
  induction l with
  | nil => exact absurd rfl h
  | cons a t ih =>
    cases t with
    | nil => simp [npArgmax]
    | cons b bs =>
      rw [npArgmax_cons_cons]
      by_cases hc : npMax (b :: bs) ≤ a
      · simp [hc]
      · have := ih (by simp)
        simp only [hc, if_false, List.length_cons] at this ⊢
        omega

theorem get_npArgmax_eq_npMax {l : List ℚ} (h : l ≠ []) :
    l.get? (npArgmax l) = some (npMax l) := by
  induction l with
  | nil => exact absurd rfl h
  | cons a t ih =>
    cases t with
    | nil => simp [npArgmax, npMax]
    | cons b bs =>
      rw [npArgmax_cons_cons, npMax_cons a (b :: bs) (by simp)]
      by_cases hc : npMax (b :: bs) ≤ a
      · simp [hc, max_eq_left hc]
      · have hlt : a < npMax (b :: bs) := lt_of_not_le hc
        simp only [hc, if_false, max_eq_right hlt.le]
        simpa using ih (by simp)

theorem lt_npMax_of_lt_npArgmax {l : List ℚ} {j : ℕ} {x : ℚ}
    (hj : j < npArgmax l) (hx : l.get? j = some x) : x < npMax l := by
  induction l generalizing j with
  | nil => simp [npArgmax] at hj
  | cons a t ih =>
    cases t with
    | nil => simp [npArgmax] at hj
    | cons b bs =>
      rw [npArgmax_cons_cons] at hj
      by_cases hc : npMax (b :: bs) ≤ a
      · simp [hc] at hj
      · have hlt : a < npMax (b :: bs) := lt_of_not_le hc
        have hmax : npMax (a :: b :: bs) = npMax (b :: bs) := by
          rw [npMax_cons a (b :: bs) (by simp)]
          exact max_eq_right hlt.le
        simp only [hc, if_false] at hj
        rw [hmax]
        cases j with
        | zero =>
          have : a = x := by simpa using hx
          exact this ▸ hlt
        | succ j' =>
          have hj' : j' < npArgmax (b :: bs) := by omega
          have hx' : (b :: bs).get? j' = some x := by simpa using hx
          exact ih hj' hx'

/-- C1: for every probability vector and label list of equal (nonzero)
length, the predicted index is the FIRST index achieving the maximum entry
(it is in bounds, holds the maximum, every entry is at most the maximum, and
every entry strictly before it is strictly below the maximum), the reported
confidence is that maximum entry, and the analysis renders the label at that
index as the predicted class. -/
theorem argmax_confidence_class_correct (image : Img) (model : Model)
    (labels : List String) (di : DiseaseDict) (probs : List ℚ)
    (hprobs : model (preprocess image) = probs)
    (hne : probs ≠ []) (hlen : labels.length = probs.length) :
    npArgmax probs < probs.length ∧
    probs.get? (npArgmax probs) = some (npMax probs) ∧
    (∀ x ∈ probs, x ≤ npMax probs) ∧
    (∀ j x, j < npArgmax probs → probs.get? j = some x → x < npMax probs) ∧
    runAnalysis image model labels di =
      Outcome.rendered
        { cls := labels.getD (npArgmax probs) "",
          conf := npMax probs,
          tier := confidenceTier (npMax probs),
          info := renderInfo di (labels.getD (npArgmax probs) "") } := by
  have hidx : npArgmax probs < probs.length := npArgmax_lt_length hne
  have hlab : npArgmax probs < labels.length := by omega
  refine ⟨hidx, get_npArgmax_eq_npMax hne, fun x hx => le_npMax hx,
    fun j x hj hx => lt_npMax_of_lt_npArgmax hj hx, ?_⟩
  have hy : labels.get? (npArgmax probs) = some (labels.get ⟨npArgmax probs, hlab⟩) :=
    List.get?_eq_get hlab
  have hgetD : labels.getD (npArgmax probs) "" = labels.get ⟨npArgmax probs, hlab⟩ := by
    rw [List.getD_eq_get?, hy]
    rfl
  simp only [runAnalysis, hprobs, hy, hgetD]

/-- C1 witness: probability vector `[0.2, 0.8]` with labels `["A", "B"]`
yields predicted index 1, confidence `0.8`, predicted class `"B"`. -/
theorem argmax_confidence_class_correct_witness :
    npArgmax [(0.2 : ℚ), 0.8] = 1 ∧ npMax [(0.2 : ℚ), 0.8] = 0.8 ∧
    runAnalysis ⟨1, 1, 3, fun _ _ _ => 100⟩ (fun _ => [(0.2 : ℚ), 0.8])
        ["A", "B"] [("B", ⟨some "t", none, none, none, none⟩)] =
      Outcome.rendered
        { cls := ["A", "B"].getD (npArgmax [(0.2 : ℚ), 0.8]) "",
          conf := npMax [(0.2 : ℚ), 0.8],
          tier := confidenceTier (npMax [(0.2 : ℚ), 0.8]),
          info := renderInfo [("B", ⟨some "t", none, none, none, none⟩)]
            (["A", "B"].getD (npArgmax [(0.2 : ℚ), 0.8]) "") } := by
  refine ⟨by norm_num [npArgmax, npMax], by norm_num [npMax], ?_⟩
  exact (argmax_confidence_class_correct ⟨1, 1, 3, fun _ _ _ => 100⟩
    (fun _ => [(0.2 : ℚ), 0.8]) ["A", "B"]
    [("B", ⟨some "t", none, none, none, none⟩)] [(0.2 : ℚ), 0.8]
    rfl (by simp) (by simp)).2.2.2.2

/-- C2: the confidence banner is high for `c > 0.85`, moderate for
`0.6 < c ≤ 0.85`, low for `c ≤ 0.6`; in particular `c = 0.85` is moderate
and `c = 0.6` is low. -/
theorem confidence_tier_correct (c : ℚ) (h0 : 0 ≤ c) (h1 : c ≤ 1) :
    (0.85 < c → confidenceTier c = Tier.high) ∧
    (0.6 < c → c ≤ 0.85 → confidenceTier c = Tier.moderate) ∧
    (c ≤ 0.6 → confidenceTier c = Tier.low) ∧
    confidenceTier (0.85 : ℚ) = Tier.moderate ∧
    confidenceTier (0.6 : ℚ) = Tier.low := by
  refine ⟨?_, ?_, ?_, by norm_num [confidenceTier], by norm_num [confidenceTier]⟩
  · intro h
    simp [confidenceTier, h]
  · intro h1 h2
    rw [confidenceTier, if_neg (by linarith), if_pos h1]
  · intro h
    rw [confidenceTier, if_neg (by linarith), if_neg (by linarith)]

/-- C2 witness: applied at `c = 0.7` (moderate tier). -/
theorem confidence_tier_correct_witness :
    (0 : ℚ) ≤ 0.7 ∧ (0.7 : ℚ) ≤ 1 ∧
    ((0.85 < (0.7 : ℚ) → confidenceTier 0.7 = Tier.high) ∧
     (0.6 < (0.7 : ℚ) → (0.7 : ℚ) ≤ 0.85 → confidenceTier 0.7 = Tier.moderate) ∧
     ((0.7 : ℚ) ≤ 0.6 → confidenceTier 0.7 = Tier.low) ∧
     confidenceTier (0.85 : ℚ) = Tier.moderate ∧
     confidenceTier (0.6 : ℚ) = Tier.low) :=
  ⟨by norm_num, by norm_num,
    confidence_tier_correct 0.7 (by norm_num) (by norm_num)⟩

theorem sampleIdx_lt {i n : ℕ} (hi : i < 128) (hn : 0 < n) :
    i * n / 128 < n := by
  rw [Nat.div_lt_iff_lt_mul (by norm_num : 0 < 128)]
  calc i * n < 128 * n := (Nat.mul_lt_mul_right hn).mpr hi
    _ = n * 128 := Nat.mul_comm _ _

/-- A concrete 1x1 3-channel source image with every channel value 100. -/
def wImg3 : Img := ⟨1, 1, 3, fun _ _ _ => 100⟩

/-- C3: for a 3-channel source image with integer channel values in
[0,255], preprocessing yields a tensor of shape (1, 128, 128, 3) whose
every entry is a source channel value divided by 255, hence in [0, 1]. -/
theorem preprocess_shape_and_range (im : Img) (hc : im.channels = 3)
    (hh : 0 < im.height) (hw : 0 < im.width)
    (hpx : ∀ i j k, i < im.height → j < im.width → k < 3 →
      ∃ v : ℕ, v ≤ 255 ∧ im.px i j k = v) :
    (preprocess im).n = 1 ∧ (preprocess im).h = 128 ∧
    (preprocess im).w = 128 ∧ (preprocess im).c = 3 ∧
    (∀ b i j k, i < 128 → j < 128 → k < 3 →
      (preprocess im).entry b i j k =
        im.px (i * im.height / 128) (j * im.width / 128) k / 255 ∧
      0 ≤ (preprocess im).entry b i j k ∧
      (preprocess im).entry b i j k ≤ 1) := by
  refine ⟨rfl, rfl, rfl, hc, fun b i j k hi hj hk => ?_⟩
  obtain ⟨v, hv, he⟩ :=
    hpx (i * im.height / 128) (j * im.width / 128) k
      (sampleIdx_lt hi hh) (sampleIdx_lt hj hw) hk
  refine ⟨rfl, ?_, ?_⟩
  · show (0 : ℚ) ≤ im.px (i * im.height / 128) (j * im.width / 128) k / 255
    rw [he]
    positivity
  · show im.px (i * im.height / 128) (j * im.width / 128) k / 255 ≤ 1
    rw [he, div_le_one (by norm_num : (0 : ℚ) < 255)]
    exact_mod_cast hv

/-- C3 witness: the theorem applied to the concrete image `wImg3`. -/
theorem preprocess_shape_and_range_witness :
    (preprocess wImg3).n = 1 ∧ (preprocess wImg3).h = 128 ∧
    (preprocess wImg3).w = 128 ∧ (preprocess wImg3).c = 3 ∧
    (∀ b i j k, i < 128 → j < 128 → k < 3 →
      (preprocess wImg3).entry b i j k =
        wImg3.px (i * wImg3.height / 128) (j * wImg3.width / 128) k / 255 ∧
      0 ≤ (preprocess wImg3).entry b i j k ∧
      (preprocess wImg3).entry b i j k ≤ 1) :=
  preprocess_shape_and_range wImg3 rfl (by norm_num [wImg3]) (by norm_num [wImg3])
    (fun i j k _ _ _ => ⟨100, by norm_num, rfl⟩)

/-- A concrete already-128x128, 3-channel image whose values all lie in
[0,1] (every channel value is 1). -/
def wImg4 : Img := ⟨128, 128, 3, fun _ _ _ => 1⟩

/-- C4 counterexample: `wImg4` is 128x128, 3-channel, [0,1]-scaled, yet
applying the resize and rescale steps changes its pixel value at (0,0,0)
from 1 to 1/255 — preprocessing is NOT idempotent on such input. -/
theorem preprocess_not_idempotent :
    wImg4.height = 128 ∧ wImg4.width = 128 ∧ wImg4.channels = 3 ∧
    (∀ i j k, 0 ≤ wImg4.px i j k ∧ wImg4.px i j k ≤ 1) ∧
    (rescale (resize128 wImg4)).px 0 0 0 ≠ wImg4.px 0 0 0 := by
  refine ⟨rfl, rfl, rfl, fun i j k => by norm_num [wImg4], ?_⟩
  norm_num [rescale, resize128, wImg4]

/-- C4 amended: on an already-128x128 image the resize step is the
identity, but the rescale step divides by 255 unconditionally, so the
combined steps fix a pixel value iff that value is 0. -/
theorem resize_noop_rescale_divides (im : Img)
    (hh : im.height = 128) (hw : im.width = 128) :
    (resize128 im).height = im.height ∧ (resize128 im).width = im.width ∧
    (resize128 im).channels = im.channels ∧
    (∀ i j k, (resize128 im).px i j k = im.px i j k) ∧
    (∀ i j k, (rescale (resize128 im)).px i j k = im.px i j k / 255) ∧
    (∀ i j k,
      ((rescale (resize128 im)).px i j k = im.px i j k ↔ im.px i j k = 0)) := by
  have hpx : ∀ i j k, (resize128 im).px i j k = im.px i j k := by
    intro i j k
    show im.px (i * im.height / 128) (j * im.width / 128) k = im.px i j k
    rw [hh, hw, Nat.mul_div_cancel i (by norm_num : 0 < 128),
      Nat.mul_div_cancel j (by norm_num : 0 < 128)]
  have hres : ∀ i j k,
      (rescale (resize128 im)).px i j k = im.px i j k / 255 := by
    intro i j k
    show (resize128 im).px i j k / 255 = im.px i j k / 255
    rw [hpx]
  refine ⟨hh.symm ▸ rfl, hw.symm ▸ rfl, rfl, hpx, hres, fun i j k => ?_⟩
  rw [hres]
  constructor
  · intro h
    rw [div_eq_iff (by norm_num : (255 : ℚ) ≠ 0)] at h
    linarith
  · intro h
    rw [h]
    norm_num

/-- C4 amended witness: the amended theorem applied to `wImg4`. -/
theorem resize_noop_rescale_divides_witness :
    (resize128 wImg4).height = wImg4.height ∧
    (resize128 wImg4).width = wImg4.width ∧
    (resize128 wImg4).channels = wImg4.channels ∧
    (∀ i j k, (resize128 wImg4).px i j k = wImg4.px i j k) ∧
    (∀ i j k, (rescale (resize128 wImg4)).px i j k = wImg4.px i j k / 255) ∧
    (∀ i j k,
      ((rescale (resize128 wImg4)).px i j k = wImg4.px i j k ↔
        wImg4.px i j k = 0)) :=
  resize_noop_rescale_divides wImg4 rfl rfl

/-- C10: preprocessing performs no channel conversion — the output tensor
has shape (1, 128, 128, c) where c is the source channel count, and it
conforms to the classifier's expected (1, 128, 128, 3) layout iff the
source has exactly 3 channels. -/
theorem preprocess_preserves_channels (im : Img) :
    (preprocess im).n = 1 ∧ (preprocess im).h = 128 ∧
    (preprocess im).w = 128 ∧ (preprocess im).c = im.channels ∧
    (((preprocess im).n, (preprocess im).h, (preprocess im).w,
        (preprocess im).c) = (1, 128, 128, 3) ↔ im.channels = 3) := by
  refine ⟨rfl, rfl, rfl, rfl, ?_⟩
  simp [preprocess, expandDims, rescale, resize128, Prod.ext_iff]

/-- C5 counterexample: when the JSON file exists but fails to parse, the
class-name and disease-info loaders do NOT return their sentinels — the
`JSONDecodeError` from `json.load` escapes the `except FileNotFoundError`
handler and propagates to the caller. -/
theorem json_loaders_raise_on_parse_error :
    load_class_names FileState.parseError = PyResult.raised "JSONDecodeError" ∧
    load_class_names FileState.parseError ≠ PyResult.ok [] ∧
    load_disease_info FileState.parseError = PyResult.raised "JSONDecodeError" ∧
    load_disease_info FileState.parseError ≠ PyResult.ok [] :=
  ⟨rfl, fun h => PyResult.noConfusion h, rfl, fun h => PyResult.noConfusion h⟩

/-- C5 amended: the model loader returns the sentinel `None` on every
failure mode (it catches all exceptions) and never raises; the JSON loaders
return their sentinels (`[]` / `{}`) only when the file is missing, and let
a parse error propagate as an unhandled exception. -/
theorem loader_failure_behaviour :
    load_app_model FileState.missing = PyResult.ok none ∧
    load_app_model FileState.parseError = PyResult.ok none ∧
    (∀ s : FileState Model, ∃ v, load_app_model s = PyResult.ok v) ∧
    load_class_names FileState.missing = PyResult.ok [] ∧
    load_disease_info FileState.missing = PyResult.ok [] ∧
    (∀ v, load_class_names (FileState.parsed v) = PyResult.ok v) ∧
    (∀ v, load_disease_info (FileState.parsed v) = PyResult.ok v) ∧
    load_class_names FileState.parseError = PyResult.raised "JSONDecodeError" ∧
    load_disease_info FileState.parseError = PyResult.raised "JSONDecodeError" := by
  refine ⟨rfl, rfl, fun s => ?_, rfl, rfl, fun v => rfl, fun v => rfl, rfl, rfl⟩
  cases s with
  | missing => exact ⟨none, rfl⟩
  | parseError => exact ⟨none, rfl⟩
  | parsed m => exact ⟨some m, rfl⟩

/-- C6: when the model loads as its sentinel `None` (e.g. missing model
file), or the class-name list or disease-info dict load as their empty
sentinels, the results column shows the not-fully-loaded error and the
analysis branch (preprocess, predict) never runs, whatever image the user
supplies. -/
theorem sentinel_gating_blocks_inference :
    load_app_model FileState.missing = PyResult.ok none ∧
    (∀ (img : Option Img) (cn : List String) (di : DiseaseDict),
      runCol2 img none cn di = Outcome.notLoadedError) ∧
    (∀ (img : Option Img) (m : Option Model) (di : DiseaseDict),
      runCol2 img m [] di = Outcome.notLoadedError) ∧
    (∀ (img : Option Img) (m : Option Model) (cn : List String),
      runCol2 img m cn [] = Outcome.notLoadedError) := by
  refine ⟨rfl, fun img cn di => ?_, fun img m di => ?_, fun img m cn => ?_⟩
  · cases img <;> rfl
  · cases img <;> cases m <;> simp [runCol2]
  · cases img <;> cases m <;> simp [runCol2]

/-- A concrete classifier whose output row is `[0.2, 0.8]`. -/
def wModelWide : Model := fun _ => [(0.2 : ℚ), 0.8]

/-- C7: with a classifier producing two outputs but a label list of length
one, `predicted_idx = 1` is out of bounds and `class_names[predicted_idx]`
raises an unhandled `IndexError`; no configuration-error path exists in the
code. -/
theorem out_of_bounds_label_raises :
    runCol2 (some wImg3) (some wModelWide) ["A"]
        [("A", ⟨none, none, none, none, none⟩)] =
      Outcome.raised "IndexError" := by
  norm_num [runCol2, runAnalysis, wModelWide, npArgmax, npMax, List.get?]

/-- C8 counterexample: in camera mode a decode failure is NOT recovered —
`Image.open(camera_input)` has no `try`/`except`, so the exception
propagates instead of an error banner being shown with the image treated
as absent. -/
theorem camera_decode_failure_unhandled :
    cameraIngest (DecodeInput.bad "cannot identify image file") =
      PyResult.raised "cannot identify image file" ∧
    cameraIngest (DecodeInput.bad "cannot identify image file") ≠
      PyResult.ok (none, true) :=
  ⟨rfl, fun h => PyResult.noConfusion h⟩

/-- C8 amended: upload mode recovers a decode failure locally (an error is
shown and the image is treated as absent, never raising), and an absent
image never reaches the analysis branch; camera mode, by contrast, lets a
decode failure propagate as an unhandled exception. -/
theorem decode_failure_recovery :
    (∀ e, uploadIngest (DecodeInput.bad e) = PyResult.ok (none, true)) ∧
    (∀ d, ∃ v, uploadIngest d = PyResult.ok v) ∧
    (∀ e, cameraIngest (DecodeInput.bad e) = PyResult.raised e) ∧
    (∀ (m : Option Model) (cn : List String) (di : DiseaseDict),
      runCol2 none m cn di = Outcome.notLoadedError ∨
      runCol2 none m cn di = Outcome.promptInfo) := by
  refine ⟨fun e => rfl, fun d => ?_, fun e => rfl, fun m cn di => ?_⟩
  · cases d with
    | nothing => exact ⟨(none, false), rfl⟩
    | bad e => exact ⟨(none, true), rfl⟩
    | good im => exact ⟨(some im, false), rfl⟩
  · cases m with
    | none => exact Or.inl rfl
    | some m =>
      by_cases h : cn.isEmpty || di.isEmpty
      · exact Or.inl (by simp [runCol2, h])
      · exact Or.inr (by simp [runCol2, h])

/-- C9: when the predicted class is not a key of the disease-info dict,
the info block renders exactly the single not-available error message —
neither the healthy branch nor any of the four disease sections. -/
theorem missing_class_renders_not_available (di : DiseaseDict) (c : String)
    (h : ∀ p ∈ di, p.1 ≠ c) :
    renderInfo di c = InfoRender.notAvailable := by
  have hl : diseaseLookup di c = none := by
    induction di with
    | nil => rfl
    | cons p t ih =>
      obtain ⟨k, v⟩ := p
      have hk : (c == k) = false := by
        rw [beq_eq_false_iff_ne]
        exact fun hc => h (k, v) (List.mem_cons_self _ _) hc.symm
      have ht := ih (fun p hp => h p (List.mem_cons_of_mem _ hp))
      simp only [diseaseLookup, List.lookup, hk] at ht ⊢
      exact ht
  simp [renderInfo, hl]

/-- C9 witness: a dict with only key `"A"` and predicted class `"B"`. -/
theorem missing_class_renders_not_available_witness :
    (∀ p ∈ ([("A", (⟨none, none, none, none, none⟩ : DiseaseRecord))] :
        DiseaseDict), p.1 ≠ "B") ∧
    renderInfo [("A", ⟨none, none, none, none, none⟩)] "B" =
      InfoRender.notAvailable :=
  ⟨by decide, missing_class_renders_not_available _ "B" (by decide)⟩

end Plantify
